import Mathlib

/-
Verification of the HashiCorp Boundary "remove user from group" action
(src/dist/index.js) against its natural-language specification.

The JavaScript source is shallowly embedded: each HTTP call site is a pure
function from the request arguments and the HTTP response the server sent
back to an `Except JSError` result, exactly mirroring the status-code
dispatch of the source.  Network transport, URL construction and JSON
parsing are outside the embedding: a response record carries the status,
status text, raw body text and the already-parsed JSON fields the code
inspects.  The orchestration `invoke` additionally returns the list of API
calls it issued, in order, so that sequencing claims can be stated.
-/

set_option autoImplicit false
set_option linter.unusedVariables false

namespace BoundaryRemove

/-- Errors of the script.  `RetryableError` and `FatalError` are the two
tagged classes declared in the source (their constructors set
`retryable` to `true` resp. `false`); `plainError` stands for any other
thrown `Error`, whose `retryable` property is absent (falsy). -/
inductive JSError where
  | retryableError (message : String)
  | fatalError (message : String)
  | plainError (message : String)
deriving DecidableEq, Repr

def JSError.message : JSError → String
  | .retryableError m => m
  | .fatalError m => m
  | .plainError m => m

/-- Whether the error is an instance of `RetryableError` or `FatalError`,
i.e. carries one of the two kinds of the taxonomy. -/
def JSError.tagged : JSError → Bool
  | .plainError _ => false
  | _ => true

/-- The `retryable` flag: `true` only on `RetryableError`; `FatalError`
sets it to `false`, and on an untagged error the property is absent,
which reads as falsy. -/
def JSError.retryable : JSError → Bool
  | .retryableError _ => true
  | _ => false

/-- Truth value of `response.ok` of the fetch API: status in 200..299. -/
def httpOk (status : Nat) : Bool := 200 ≤ status && status ≤ 299

/-- Response to the authenticate POST.  `token` is
`data.attributes?.token` of the parsed JSON body: `none` when the path is
absent, `some s` when present with string value `s`. -/
structure AuthResponse where
  status : Nat
  statusText : String
  bodyText : String
  token : Option String
deriving DecidableEq, Repr

/-- Response to the group read GET.  `version` is `data.version` of the
parsed JSON body (`none` when absent). -/
structure GroupResponse where
  status : Nat
  statusText : String
  bodyText : String
  version : Option Int
deriving DecidableEq, Repr

/-- Response to the remove-members POST; the success path inspects no
body field. -/
structure RemoveResponse where
  status : Nat
  statusText : String
  bodyText : String
deriving DecidableEq, Repr

/-- JavaScript falsiness of an optional string: absent or empty. -/
def strFalsy (o : Option String) : Bool := o.getD "" == ""

/-- Embedding of `authenticate(authMethodId, username, password, baseUrl)`
applied to the HTTP response the server returned.  The argument strings
feed only the request (URL and body), which the embedding does not
re-model; the returned token is `data.attributes.token`.  The guard
`!data.attributes?.token` is falsy-based, so an absent and an empty token
are rejected alike. -/
def authenticate (authMethodId username password baseUrl : String)
    (response : AuthResponse) : Except JSError String :=
  if !httpOk response.status then
    if response.status == 429 then
      .error (.retryableError "Boundary API rate limit exceeded")
    else if response.status == 401 || response.status == 403 then
      .error (.fatalError "Invalid username or password")
    else if 500 ≤ response.status then
      .error (.retryableError ("Boundary API server error: " ++ toString response.status))
    else
      .error (.fatalError ("Failed to authenticate: " ++ toString response.status ++ " "
        ++ response.statusText ++ " - " ++ response.bodyText))
  else if strFalsy response.token then
    .error (.fatalError "No token returned from authentication")
  else
    .ok (response.token.getD "")

/-- Embedding of `getGroup(groupId, token, baseUrl)` applied to the HTTP
response.  The guard `!data.version` is falsy-based, so an absent version
and a version equal to `0` are rejected alike. -/
def getGroup (groupId token baseUrl : String)
    (response : GroupResponse) : Except JSError Int :=
  if !httpOk response.status then
    if response.status == 429 then
      .error (.retryableError "Boundary API rate limit exceeded")
    else if response.status == 401 then
      .error (.fatalError "Invalid or expired authentication token")
    else if response.status == 404 then
      .error (.fatalError ("Group not found: " ++ groupId))
    else if 500 ≤ response.status then
      .error (.retryableError ("Boundary API server error: " ++ toString response.status))
    else
      .error (.fatalError ("Failed to get group: " ++ toString response.status ++ " "
        ++ response.statusText ++ " - " ++ response.bodyText))
  else if response.version.getD 0 == 0 then
    .error (.fatalError "No version returned from group")
  else
    .ok (response.version.getD 0)

/-- Embedding of `removeUserFromGroup(groupId, userId, version, token,
baseUrl)` applied to the HTTP response.  Any 2xx returns `true`. -/
def removeUserFromGroup (groupId userId : String) (version : Int)
    (token baseUrl : String) (response : RemoveResponse) : Except JSError Bool :=
  if !httpOk response.status then
    if response.status == 429 then
      .error (.retryableError "Boundary API rate limit exceeded")
    else if response.status == 401 then
      .error (.fatalError "Invalid or expired authentication token")
    else if response.status == 404 then
      .error (.fatalError ("Group or user not found: " ++ groupId ++ " / " ++ userId))
    else if response.status == 409 then
      .error (.fatalError ("Conflict (user may not be in group): " ++ response.bodyText))
    else if 500 ≤ response.status then
      .error (.retryableError ("Boundary API server error: " ++ toString response.status))
    else
      .error (.fatalError ("Failed to remove user from group: " ++ toString response.status
        ++ " " ++ response.statusText ++ " - " ++ response.bodyText))
  else
    .ok true

/-- Values a request parameter can hold in JavaScript: a string, a
number, a boolean, `null`, or absent (`undefined`).  This is the domain
over which `validateInputs` discriminates. -/
inductive JSValue where
  | str (s : String)
  | num (n : Int)
  | boolean (b : Bool)
  | nullV
  | undefined
deriving DecidableEq, Repr

/-- JavaScript falsiness of a parameter value. -/
def JSValue.falsy : JSValue → Bool
  | .str s => s == ""
  | .num n => n == 0
  | .boolean b => !b
  | .nullV => true
  | .undefined => true

def JSValue.isString : JSValue → Bool
  | .str _ => true
  | _ => false

/-- Model of `String.prototype.trim`: both ends stripped of whitespace.
This stands in for the JavaScript builtin, written with structural list
recursion so that it evaluates on concrete inputs. -/
def jsTrim (s : String) : String :=
  String.mk (((s.data.dropWhile Char.isWhitespace).reverse.dropWhile Char.isWhitespace).reverse)

/-- The trimmed text of a string value; the validator only reaches the
`.trim()` call on strings, so the non-string branches are never used. -/
def JSValue.trimmed : JSValue → String
  | .str s => jsTrim s
  | _ => ""

/-- The raw string payload (the validated parameters are always strings
by the time the orchestration destructures them). -/
def JSValue.asString : JSValue → String
  | .str s => s
  | _ => ""

/-- One disjunct of the validator: `!v || typeof v !== 'string' ||
v.trim() === ''`. -/
def invalidParam (v : JSValue) : Bool :=
  v.falsy || !v.isString || v.trimmed == ""

/-- Request parameters of the action.  `address` is the optional override
of the base URL. -/
structure Params where
  groupId : JSValue
  userId : JSValue
  authMethodId : JSValue
  address : Option String
deriving DecidableEq, Repr

/-- Embedding of `validateInputs(params)`: three checks in fixed order,
each throwing a `FatalError` naming the offending field. -/
def validateInputs (p : Params) : Except JSError Unit :=
  if invalidParam p.groupId then
    .error (.fatalError "Invalid or missing groupId parameter")
  else if invalidParam p.userId then
    .error (.fatalError "Invalid or missing userId parameter")
  else if invalidParam p.authMethodId then
    .error (.fatalError "Invalid or missing authMethodId parameter")
  else
    .ok ()

/-- Embedding of `getBaseURL(params, context)`: the `address` parameter
wins when truthy, else the `ADDRESS` environment variable; when both are
falsy a plain `Error` (not a tagged one) is thrown; a trailing slash is
stripped. -/
def getBaseURL (paramsAddress envADDRESS : Option String) : Except JSError String :=
  let address := if strFalsy paramsAddress then envADDRESS.getD "" else paramsAddress.getD ""
  if address == "" then
    .error (.plainError "No URL specified. Provide address parameter or ADDRESS environment variable")
  else if address.data.getLast? == some '/' then
    .ok (String.mk address.data.dropLast)
  else
    .ok address

/-- Execution context: the two credential secrets and the `ADDRESS`
environment variable, each possibly absent. -/
structure Context where
  BASIC_USERNAME : Option String
  BASIC_PASSWORD : Option String
  ADDRESS : Option String
deriving DecidableEq, Repr

/-- Clock value at which `new Date()` is sampled; the fields mirror what
`toISOString` prints.  Out-of-range fields are harmless to the embedding:
each position is printed modulo 10. -/
structure JSDate where
  year : Nat
  month : Nat
  day : Nat
  hour : Nat
  minute : Nat
  second : Nat
  millisecond : Nat
deriving DecidableEq, Repr

/-- Decimal digit character of `n % 10`. -/
def digitChar10 (n : Nat) : Char :=
  match n % 10 with
  | 0 => '0' | 1 => '1' | 2 => '2' | 3 => '3' | 4 => '4'
  | 5 => '5' | 6 => '6' | 7 => '7' | 8 => '8' | _ => '9'

/-- Model of `Date.prototype.toISOString`: the 24-character form
YYYY-MM-DDTHH:mm:ss.sssZ with zero-padded fields. -/
def toISOString (d : JSDate) : String :=
  String.mk
    [digitChar10 (d.year / 1000), digitChar10 (d.year / 100), digitChar10 (d.year / 10),
     digitChar10 d.year, '-', digitChar10 (d.month / 10), digitChar10 d.month, '-',
     digitChar10 (d.day / 10), digitChar10 d.day, 'T', digitChar10 (d.hour / 10),
     digitChar10 d.hour, ':', digitChar10 (d.minute / 10), digitChar10 d.minute, ':',
     digitChar10 (d.second / 10), digitChar10 d.second, '.',
     digitChar10 (d.millisecond / 100), digitChar10 (d.millisecond / 10),
     digitChar10 d.millisecond, 'Z']

def isDigitChar (c : Char) : Bool := 48 ≤ c.toNat && c.toNat ≤ 57

/-- Recogniser for the 24-character ISO-8601 UTC timestamp shape
produced by `toISOString`. -/
def isValidISO8601 (s : String) : Bool :=
  match s.data with
  | [y1, y2, y3, y4, d1, m1, m2, d2, a1, a2, t1, h1, h2, c1, n1, n2, c2, s1, s2, p1,
     q1, q2, q3, z1] =>
    isDigitChar y1 && isDigitChar y2 && isDigitChar y3 && isDigitChar y4 && d1 == '-' &&
    isDigitChar m1 && isDigitChar m2 && d2 == '-' && isDigitChar a1 && isDigitChar a2 &&
    t1 == 'T' && isDigitChar h1 && isDigitChar h2 && c1 == ':' && isDigitChar n1 &&
    isDigitChar n2 && c2 == ':' && isDigitChar s1 && isDigitChar s2 && p1 == '.' &&
    isDigitChar q1 && isDigitChar q2 && isDigitChar q3 && z1 == 'Z'
  | _ => false

/-- One issued HTTP request, with the arguments the source passes to the
corresponding helper. -/
inductive ApiCall where
  | auth (authMethodId username password baseUrl : String)
  | readGroup (groupId token baseUrl : String)
  | removeMember (groupId userId : String) (version : Int) (token baseUrl : String)
deriving DecidableEq, Repr

/-- Success payload of `invoke`. -/
structure InvokeResult where
  groupId : String
  userId : String
  authMethodId : String
  userRemoved : Bool
  removedAt : String
deriving DecidableEq, Repr

/-- Body of the `try` block of `invoke` (src/dist/index.js lines
495-541), before the `catch`: validation, the secrets check, base-URL
resolution, then the three sequential calls; the second component is the
list of HTTP requests issued, in order.  The three response records play
the role of what the server would answer each call. -/
def invokeRaw (p : Params) (ctx : Context) (authR : AuthResponse)
    (groupR : GroupResponse) (removeR : RemoveResponse) (now : JSDate) :
    Except JSError InvokeResult × List ApiCall :=
  match validateInputs p with
  | .error e => (.error e, [])
  | .ok _ =>
    let groupId := p.groupId.asString
    let userId := p.userId.asString
    let authMethodId := p.authMethodId.asString
    if strFalsy ctx.BASIC_USERNAME || strFalsy ctx.BASIC_PASSWORD then
      (.error (.fatalError "Missing required secrets: BASIC_USERNAME and BASIC_PASSWORD"), [])
    else
      match getBaseURL p.address ctx.ADDRESS with
      | .error e => (.error e, [])
      | .ok baseUrl =>
        let username := ctx.BASIC_USERNAME.getD ""
        let password := ctx.BASIC_PASSWORD.getD ""
        let authCall := ApiCall.auth authMethodId username password baseUrl
        match authenticate authMethodId username password baseUrl authR with
        | .error e => (.error e, [authCall])
        | .ok token =>
          let readCall := ApiCall.readGroup groupId token baseUrl
          match getGroup groupId token baseUrl groupR with
          | .error e => (.error e, [authCall, readCall])
          | .ok version =>
            let removeCall := ApiCall.removeMember groupId userId version token baseUrl
            match removeUserFromGroup groupId userId version token baseUrl removeR with
            | .error e => (.error e, [authCall, readCall, removeCall])
            | .ok _ =>
              (.ok { groupId := groupId, userId := userId, authMethodId := authMethodId,
                     userRemoved := true, removedAt := toISOString now },
               [authCall, readCall, removeCall])

/-- The `catch` clause of `invoke`: a tagged error is re-thrown
unchanged, anything else is wrapped as a `FatalError` with the
"Unexpected error: " prefix. -/
def wrapOutgoing : JSError → JSError
  | .retryableError m => .retryableError m
  | .fatalError m => .fatalError m
  | .plainError m => .fatalError ("Unexpected error: " ++ m)

/-- Embedding of `invoke` as observed by the caller: the `try` body with
the `catch` clause applied to any escaping error. -/
def invoke (p : Params) (ctx : Context) (authR : AuthResponse)
    (groupR : GroupResponse) (removeR : RemoveResponse) (now : JSDate) :
    Except JSError InvokeResult × List ApiCall :=
  let r := invokeRaw p ctx authR groupR removeR now
  (match r.1 with
   | .error e => .error (wrapOutgoing e)
   | .ok v => .ok v,
   r.2)

/-- Parameters of the `halt` handler: each field possibly absent. -/
structure HaltParams where
  reason : Option String
  groupId : Option String
  userId : Option String
  authMethodId : Option String
deriving DecidableEq, Repr

/-- Payload returned by the `halt` handler. -/
structure HaltResult where
  groupId : String
  userId : String
  authMethodId : String
  reason : String
  haltedAt : String
  cleanupCompleted : Bool
deriving DecidableEq, Repr

/-- JavaScript `x || 'unknown'`: the fallback fires on any falsy value,
so on an absent field and on an empty string alike. -/
def orUnknown (o : Option String) : String :=
  if strFalsy o then "unknown" else o.getD ""

/-- Embedding of the `halt` handler. -/
def halt (p : HaltParams) (now : JSDate) : HaltResult :=
  { groupId := orUnknown p.groupId
    userId := orUnknown p.userId
    authMethodId := orUnknown p.authMethodId
    reason := orUnknown p.reason
    haltedAt := toISOString now
    cleanupCompleted := true }

/-- Classification of a step result: it threw an error whose `retryable`
flag is `true`. -/
def throwsRetryable {α : Type} (r : Except JSError α) : Prop :=
  ∃ e, r = .error e ∧ e.retryable = true

/-- Classification of a step result: it threw a `FatalError`, i.e. a
tagged error whose `retryable` flag is `false`. -/
def throwsFatal {α : Type} (r : Except JSError α) : Prop :=
  ∃ e, r = .error e ∧ e.retryable = false ∧ e.tagged = true

theorem isDigitChar_digitChar10 (n : Nat) : isDigitChar (digitChar10 n) = true := by
  have h : n % 10 < 10 := Nat.mod_lt _ (by omega)
  unfold digitChar10
  generalize n % 10 = k at h ⊢
  interval_cases k <;> decide

theorem isValidISO8601_toISOString (d : JSDate) :
    isValidISO8601 (toISOString d) = true := by
  simp [toISOString, isValidISO8601, isDigitChar_digitChar10]

theorem httpOk_false_of_429_or_5xx {s : Nat} (h : s = 429 ∨ 500 ≤ s) :
    httpOk s = false := by
  unfold httpOk
  rcases h with h | h <;> simp <;> omega

theorem authenticate_retryable_of_status (am u pw b : String) (resp : AuthResponse)
    (h : resp.status = 429 ∨ 500 ≤ resp.status) :
    throwsRetryable (authenticate am u pw b resp) := by
  have hok : httpOk resp.status = false := httpOk_false_of_429_or_5xx h
  rcases h with h | h
  · exact ⟨.retryableError "Boundary API rate limit exceeded",
      by simp [authenticate, httpOk, h], rfl⟩
  · have h1 : (resp.status == 429) = false := by simp; omega
    have h2 : (resp.status == 401) = false := by simp; omega
    have h3 : (resp.status == 403) = false := by simp; omega
    exact ⟨.retryableError ("Boundary API server error: " ++ toString resp.status),
      by simp [authenticate, hok, h1, h2, h3, h], rfl⟩

theorem getGroup_retryable_of_status (g t b : String) (resp : GroupResponse)
    (h : resp.status = 429 ∨ 500 ≤ resp.status) :
    throwsRetryable (getGroup g t b resp) := by
  have hok : httpOk resp.status = false := httpOk_false_of_429_or_5xx h
  rcases h with h | h
  · exact ⟨.retryableError "Boundary API rate limit exceeded",
      by simp [getGroup, httpOk, h], rfl⟩
  · have h1 : (resp.status == 429) = false := by simp; omega
    have h2 : (resp.status == 401) = false := by simp; omega
    have h3 : (resp.status == 404) = false := by simp; omega
    exact ⟨.retryableError ("Boundary API server error: " ++ toString resp.status),
      by simp [getGroup, hok, h1, h2, h3, h], rfl⟩

theorem remove_retryable_of_status (g u : String) (v : Int) (t b : String)
    (resp : RemoveResponse) (h : resp.status = 429 ∨ 500 ≤ resp.status) :
    throwsRetryable (removeUserFromGroup g u v t b resp) := by
  have hok : httpOk resp.status = false := httpOk_false_of_429_or_5xx h
  rcases h with h | h
  · exact ⟨.retryableError "Boundary API rate limit exceeded",
      by simp [removeUserFromGroup, httpOk, h], rfl⟩
  · have h1 : (resp.status == 429) = false := by simp; omega
    have h2 : (resp.status == 401) = false := by simp; omega
    have h3 : (resp.status == 404) = false := by simp; omega
    have h4 : (resp.status == 409) = false := by simp; omega
    exact ⟨.retryableError ("Boundary API server error: " ++ toString resp.status),
      by simp [removeUserFromGroup, hok, h1, h2, h3, h4, h], rfl⟩

/-- C1: for every HTTP response with status 429 or status at least 500
returned by any of the three remote calls (authenticate, read group,
remove member), the error thrown by that step has its retryable flag set
to true. -/
theorem claim_retryable_statuses (am u pw b g gu uid t : String) (v : Int)
    (aR : AuthResponse) (gR : GroupResponse) (rR : RemoveResponse)
    (ha : aR.status = 429 ∨ 500 ≤ aR.status)
    (hg : gR.status = 429 ∨ 500 ≤ gR.status)
    (hr : rR.status = 429 ∨ 500 ≤ rR.status) :
    throwsRetryable (authenticate am u pw b aR) ∧
    throwsRetryable (getGroup g t b gR) ∧
    throwsRetryable (removeUserFromGroup gu uid v t b rR) :=
  ⟨authenticate_retryable_of_status am u pw b aR ha,
   getGroup_retryable_of_status g t b gR hg,
   remove_retryable_of_status gu uid v t b rR hr⟩

/-- Witness for C1 at concrete responses with statuses 429, 503 and 500. -/
theorem claim_retryable_statuses_witness :
    throwsRetryable (authenticate "am" "u" "pw" "http://b" ⟨429, "Too Many Requests", "", none⟩) ∧
    throwsRetryable (getGroup "g" "tok" "http://b" ⟨503, "Service Unavailable", "", none⟩) ∧
    throwsRetryable (removeUserFromGroup "g" "uid" 3 "tok" "http://b" ⟨500, "Internal Server Error", ""⟩) :=
  claim_retryable_statuses "am" "u" "pw" "http://b" "g" "g" "uid" "tok" 3
    ⟨429, "Too Many Requests", "", none⟩ ⟨503, "Service Unavailable", "", none⟩
    ⟨500, "Internal Server Error", ""⟩
    (Or.inl rfl) (Or.inr (by decide)) (Or.inr (by decide))

theorem authenticate_fatal_of_status (am u pw b : String) (resp : AuthResponse)
    (h : resp.status = 401 ∨ resp.status = 403) :
    authenticate am u pw b resp = .error (.fatalError "Invalid username or password") := by
  rcases h with h | h <;> simp [authenticate, httpOk, h]

theorem getGroup_fatal_of_status (g t b : String) (resp : GroupResponse)
    (h : resp.status = 401 ∨ resp.status = 404) :
    throwsFatal (getGroup g t b resp) := by
  rcases h with h | h
  · exact ⟨.fatalError "Invalid or expired authentication token",
      by simp [getGroup, httpOk, h], rfl, rfl⟩
  · exact ⟨.fatalError ("Group not found: " ++ g),
      by simp [getGroup, httpOk, h], rfl, rfl⟩

theorem remove_fatal_of_status (g u : String) (v : Int) (t b : String)
    (resp : RemoveResponse)
    (h : resp.status = 401 ∨ resp.status = 404 ∨ resp.status = 409) :
    throwsFatal (removeUserFromGroup g u v t b resp) := by
  rcases h with h | h | h
  · exact ⟨.fatalError "Invalid or expired authentication token",
      by simp [removeUserFromGroup, httpOk, h], rfl, rfl⟩
  · exact ⟨.fatalError ("Group or user not found: " ++ g ++ " / " ++ u),
      by simp [removeUserFromGroup, httpOk, h], rfl, rfl⟩
  · exact ⟨.fatalError ("Conflict (user may not be in group): " ++ resp.bodyText),
      by simp [removeUserFromGroup, httpOk, h], rfl, rfl⟩

/-- C2: for every HTTP response with status 401 or 403 on the
authenticate call, status 401 or 404 on the read-group call, and status
401, 404 or 409 on the remove-member call, the error thrown is a
`FatalError` (tagged, retryable flag false). -/
theorem claim_fatal_statuses (am u pw b g gu uid t : String) (v : Int)
    (aR : AuthResponse) (gR : GroupResponse) (rR : RemoveResponse)
    (ha : aR.status = 401 ∨ aR.status = 403)
    (hg : gR.status = 401 ∨ gR.status = 404)
    (hr : rR.status = 401 ∨ rR.status = 404 ∨ rR.status = 409) :
    throwsFatal (authenticate am u pw b aR) ∧
    throwsFatal (getGroup g t b gR) ∧
    throwsFatal (removeUserFromGroup gu uid v t b rR) :=
  ⟨⟨.fatalError "Invalid username or password",
     authenticate_fatal_of_status am u pw b aR ha, rfl, rfl⟩,
   getGroup_fatal_of_status g t b gR hg,
   remove_fatal_of_status gu uid v t b rR hr⟩

/-- Witness for C2 at concrete responses with statuses 403, 404 and 401. -/
theorem claim_fatal_statuses_witness :
    throwsFatal (authenticate "am" "u" "pw" "http://b" ⟨403, "Forbidden", "", none⟩) ∧
    throwsFatal (getGroup "g" "tok" "http://b" ⟨404, "Not Found", "", none⟩) ∧
    throwsFatal (removeUserFromGroup "g" "uid" 2 "tok" "http://b" ⟨401, "Unauthorized", ""⟩) :=
  claim_fatal_statuses "am" "u" "pw" "http://b" "g" "g" "uid" "tok" 2
    ⟨403, "Forbidden", "", none⟩ ⟨404, "Not Found", "", none⟩ ⟨401, "Unauthorized", ""⟩
    (Or.inr rfl) (Or.inr rfl) (Or.inl rfl)

/-- C3: for every remove-member response with HTTP status 409, the thrown
error is exactly the conflict `FatalError`, whose retryable flag is
false; in particular the step never classifies a 409 as retryable. -/
theorem claim_remove_409_fatal (g u : String) (v : Int) (t b : String)
    (resp : RemoveResponse) (h : resp.status = 409) :
    removeUserFromGroup g u v t b resp =
      .error (.fatalError ("Conflict (user may not be in group): " ++ resp.bodyText)) ∧
    (JSError.fatalError ("Conflict (user may not be in group): " ++ resp.bodyText)).retryable
      = false := by
  refine ⟨?_, rfl⟩
  simp [removeUserFromGroup, httpOk, h]

/-- Witness for C3 at a concrete 409 response. -/
theorem claim_remove_409_fatal_witness :
    removeUserFromGroup "g" "uid" 7 "tok" "http://b" ⟨409, "Conflict", "version mismatch"⟩ =
      .error (.fatalError ("Conflict (user may not be in group): " ++ "version mismatch")) ∧
    (JSError.fatalError ("Conflict (user may not be in group): " ++ "version mismatch")).retryable
      = false :=
  claim_remove_409_fatal "g" "uid" 7 "tok" "http://b" ⟨409, "Conflict", "version mismatch"⟩ rfl

theorem invalidParam_eq_false_iff (v : JSValue) :
    invalidParam v = false ↔ ∃ s, v = .str s ∧ jsTrim s ≠ "" := by
  cases v with
  | str s =>
    simp [invalidParam, JSValue.falsy, JSValue.isString, JSValue.trimmed]
    intro h
    intro hs
    rw [hs] at h
    exact h (by decide)
  | num n => simp [invalidParam, JSValue.falsy, JSValue.isString, JSValue.trimmed]
  | boolean bv => cases bv <;>
      simp [invalidParam, JSValue.falsy, JSValue.isString, JSValue.trimmed]
  | nullV => simp [invalidParam, JSValue.falsy, JSValue.isString, JSValue.trimmed]
  | undefined => simp [invalidParam, JSValue.falsy, JSValue.isString, JSValue.trimmed]

theorem wellFormed_iff_not_invalid (v : JSValue) :
    (¬ ∃ s, v = .str s ∧ jsTrim s ≠ "") ↔ invalidParam v = true := by
  rw [← invalidParam_eq_false_iff]
  cases hinv : invalidParam v <;> simp

theorem validateInputs_ok_iff (p : Params) :
    validateInputs p = .ok () ↔
      invalidParam p.groupId = false ∧ invalidParam p.userId = false ∧
      invalidParam p.authMethodId = false := by
  unfold validateInputs
  cases h1 : invalidParam p.groupId <;> cases h2 : invalidParam p.userId <;>
    cases h3 : invalidParam p.authMethodId <;> simp

/-- C4: a request parameter is well-formed exactly when it is a string
that is non-empty after trimming (so a missing, non-string, or
empty/whitespace-only value is rejected); validation fails with a
`FatalError` naming the first offending field in the fixed order
groupId, userId, authMethodId, and succeeds silently when all three are
well-formed. -/
theorem claim_validate_inputs (p : Params) :
    (validateInputs p = .ok () ↔
      (∃ s, p.groupId = .str s ∧ jsTrim s ≠ "") ∧
      (∃ s, p.userId = .str s ∧ jsTrim s ≠ "") ∧
      (∃ s, p.authMethodId = .str s ∧ jsTrim s ≠ "")) ∧
    ((¬ ∃ s, p.groupId = .str s ∧ jsTrim s ≠ "") →
      validateInputs p = .error (.fatalError "Invalid or missing groupId parameter")) ∧
    ((∃ s, p.groupId = .str s ∧ jsTrim s ≠ "") →
      (¬ ∃ s, p.userId = .str s ∧ jsTrim s ≠ "") →
      validateInputs p = .error (.fatalError "Invalid or missing userId parameter")) ∧
    ((∃ s, p.groupId = .str s ∧ jsTrim s ≠ "") →
      (∃ s, p.userId = .str s ∧ jsTrim s ≠ "") →
      (¬ ∃ s, p.authMethodId = .str s ∧ jsTrim s ≠ "") →
      validateInputs p = .error (.fatalError "Invalid or missing authMethodId parameter")) := by
  refine ⟨?_, ?_, ?_, ?_⟩
  · rw [validateInputs_ok_iff]
    rw [invalidParam_eq_false_iff, invalidParam_eq_false_iff, invalidParam_eq_false_iff]
  · intro h
    have h1 : invalidParam p.groupId = true := (wellFormed_iff_not_invalid _).1 h
    simp [validateInputs, h1]
  · intro hg h
    have h1 : invalidParam p.groupId = false := (invalidParam_eq_false_iff _).2 hg
    have h2 : invalidParam p.userId = true := (wellFormed_iff_not_invalid _).1 h
    simp [validateInputs, h1, h2]
  · intro hg hu h
    have h1 : invalidParam p.groupId = false := (invalidParam_eq_false_iff _).2 hg
    have h2 : invalidParam p.userId = false := (invalidParam_eq_false_iff _).2 hu
    have h3 : invalidParam p.authMethodId = true := (wellFormed_iff_not_invalid _).1 h
    simp [validateInputs, h1, h2, h3]

/-- Witness for C4: a missing groupId is reported first, a
whitespace-only userId is reported once groupId is fine, and a fully
well-formed request validates silently. -/
theorem claim_validate_inputs_witness :
    validateInputs ⟨.undefined, .str "u_1", .str "am_1", none⟩ =
      .error (.fatalError "Invalid or missing groupId parameter") ∧
    validateInputs ⟨.str "g_1", .str "   ", .str "am_1", none⟩ =
      .error (.fatalError "Invalid or missing userId parameter") ∧
    validateInputs ⟨.str "g_1", .str "u_1", .str "am_1", none⟩ = .ok () :=
  ⟨(claim_validate_inputs _).2.1
      (by rintro ⟨s, hs, hmm⟩; exact JSValue.noConfusion hs),
   (claim_validate_inputs _).2.2.1 ⟨"g_1", rfl, by decide⟩
      (by
        rintro ⟨s, hs, ht⟩
        injection hs with hs2
        rw [← hs2] at ht
        exact ht (by decide)),
   (claim_validate_inputs _).1.2
      ⟨⟨"g_1", rfl, by decide⟩, ⟨"u_1", rfl, by decide⟩, ⟨"am_1", rfl, by decide⟩⟩⟩

theorem validateInputs_ok_of_wellFormed (p : Params) (gs us as : String)
    (hpg : p.groupId = .str gs) (hpu : p.userId = .str us) (hpa : p.authMethodId = .str as)
    (hg : jsTrim gs ≠ "") (hu : jsTrim us ≠ "") (ha : jsTrim as ≠ "") :
    validateInputs p = .ok () := by
  rw [validateInputs_ok_iff]
  exact ⟨(invalidParam_eq_false_iff _).2 ⟨gs, hpg, hg⟩,
    (invalidParam_eq_false_iff _).2 ⟨us, hpu, hu⟩,
    (invalidParam_eq_false_iff _).2 ⟨as, hpa, ha⟩⟩

theorem authenticate_ok (am u pw b : String) (resp : AuthResponse) (t : String)
    (hok : httpOk resp.status = true) (ht : resp.token = some t) (hne : t ≠ "") :
    authenticate am u pw b resp = .ok t := by
  simp [authenticate, hok, strFalsy, ht, hne]

theorem getGroup_ok (g tk b : String) (resp : GroupResponse) (v : Int)
    (hok : httpOk resp.status = true) (hv : resp.version = some v) (hne : v ≠ 0) :
    getGroup g tk b resp = .ok v := by
  simp [getGroup, hok, hv, hne]

theorem removeUserFromGroup_ok (g u : String) (v : Int) (tk b : String)
    (resp : RemoveResponse) (hok : httpOk resp.status = true) :
    removeUserFromGroup g u v tk b resp = .ok true := by
  simp [removeUserFromGroup, hok]

/-- C5: for every valid input (well-formed groupId, userId, authMethodId,
both secrets present and a base address resolving) where authentication
answers 2xx with a non-empty token, the group read answers 2xx with a
non-zero version, and the removal answers 2xx, invoke returns exactly
the record echoing the three input identifiers with userRemoved true and
a removedAt string of valid ISO-8601 shape. -/
theorem claim_invoke_success (gs us as baseUrl t : String) (v : Int)
    (p : Params) (ctx : Context) (aR : AuthResponse) (gR : GroupResponse)
    (rR : RemoveResponse) (now : JSDate)
    (hpg : p.groupId = .str gs) (hpu : p.userId = .str us) (hpa : p.authMethodId = .str as)
    (hg : jsTrim gs ≠ "") (hu : jsTrim us ≠ "") (ha : jsTrim as ≠ "")
    (hsu : strFalsy ctx.BASIC_USERNAME = false) (hsp : strFalsy ctx.BASIC_PASSWORD = false)
    (hb : getBaseURL p.address ctx.ADDRESS = .ok baseUrl)
    (haok : httpOk aR.status = true) (hat : aR.token = some t) (htne : t ≠ "")
    (hgok : httpOk gR.status = true) (hgv : gR.version = some v) (hvne : v ≠ 0)
    (hrok : httpOk rR.status = true) :
    (invoke p ctx aR gR rR now).1 =
      .ok { groupId := gs, userId := us, authMethodId := as, userRemoved := true,
            removedAt := toISOString now } ∧
    isValidISO8601 (toISOString now) = true := by
  have hval : validateInputs p = .ok () :=
    validateInputs_ok_of_wellFormed p gs us as hpg hpu hpa hg hu ha
  refine ⟨?_, isValidISO8601_toISOString now⟩
  have hauth : ∀ b2 : String,
      authenticate as (ctx.BASIC_USERNAME.getD "") (ctx.BASIC_PASSWORD.getD "") b2 aR = .ok t :=
    fun b2 => authenticate_ok _ _ _ _ aR t haok hat htne
  have hgrp : ∀ b2 : String, getGroup gs t b2 gR = .ok v :=
    fun b2 => getGroup_ok _ _ _ gR v hgok hgv hvne
  have hrem : ∀ b2 : String, removeUserFromGroup gs us v t b2 rR = .ok true :=
    fun b2 => removeUserFromGroup_ok _ _ _ _ _ rR hrok
  simp [invoke, invokeRaw, hval, hsu, hsp, hb, hpg, hpu, hpa, JSValue.asString,
    hauth, hgrp, hrem]

/-- Witness for C5: a mocked backend answering token "T", version 5, and
a 204 removal yields the exact success record. -/
theorem claim_invoke_success_witness :
    (invoke ⟨.str "g_1", .str "u_1", .str "am_1", some "http://b"⟩ ⟨some "user", some "pw", none⟩
        ⟨200, "OK", "", some "T"⟩ ⟨200, "OK", "", some 5⟩ ⟨204, "No Content", ""⟩
        ⟨2024, 1, 15, 10, 30, 0, 0⟩).1 =
      .ok { groupId := "g_1", userId := "u_1", authMethodId := "am_1", userRemoved := true,
            removedAt := toISOString ⟨2024, 1, 15, 10, 30, 0, 0⟩ } ∧
    isValidISO8601 (toISOString ⟨2024, 1, 15, 10, 30, 0, 0⟩) = true :=
  claim_invoke_success "g_1" "u_1" "am_1" "http://b" "T" 5 _ _ _ _ _ _
    rfl rfl rfl (by decide) (by decide) (by decide) rfl rfl rfl
    rfl rfl (by decide) rfl rfl (by decide) rfl

/-- C6: under a valid configuration the three remote calls are issued
strictly in the order authenticate, read group, remove member, the group
read consuming the token produced by authentication and the removal
consuming the version produced by the read; when a step fails the trace
stops at that call, so no later request is ever issued. -/
theorem claim_sequential (gs us as baseUrl : String)
    (p : Params) (ctx : Context) (aR : AuthResponse) (gR : GroupResponse)
    (rR : RemoveResponse) (now : JSDate)
    (hpg : p.groupId = .str gs) (hpu : p.userId = .str us) (hpa : p.authMethodId = .str as)
    (hg : jsTrim gs ≠ "") (hu : jsTrim us ≠ "") (ha : jsTrim as ≠ "")
    (hsu : strFalsy ctx.BASIC_USERNAME = false) (hsp : strFalsy ctx.BASIC_PASSWORD = false)
    (hb : getBaseURL p.address ctx.ADDRESS = .ok baseUrl) :
    (∀ e, authenticate as (ctx.BASIC_USERNAME.getD "") (ctx.BASIC_PASSWORD.getD "") baseUrl aR
        = .error e →
      (invoke p ctx aR gR rR now).2 =
        [ApiCall.auth as (ctx.BASIC_USERNAME.getD "") (ctx.BASIC_PASSWORD.getD "") baseUrl]) ∧
    (∀ t, authenticate as (ctx.BASIC_USERNAME.getD "") (ctx.BASIC_PASSWORD.getD "") baseUrl aR
        = .ok t →
      (∀ e, getGroup gs t baseUrl gR = .error e →
        (invoke p ctx aR gR rR now).2 =
          [ApiCall.auth as (ctx.BASIC_USERNAME.getD "") (ctx.BASIC_PASSWORD.getD "") baseUrl,
           ApiCall.readGroup gs t baseUrl]) ∧
      (∀ v, getGroup gs t baseUrl gR = .ok v →
        (invoke p ctx aR gR rR now).2 =
          [ApiCall.auth as (ctx.BASIC_USERNAME.getD "") (ctx.BASIC_PASSWORD.getD "") baseUrl,
           ApiCall.readGroup gs t baseUrl,
           ApiCall.removeMember gs us v t baseUrl])) := by
  have hval : validateInputs p = .ok () :=
    validateInputs_ok_of_wellFormed p gs us as hpg hpu hpa hg hu ha
  refine ⟨?_, ?_⟩
  · intro e he
    simp [invoke, invokeRaw, hval, hsu, hsp, hb, hpg, hpu, hpa, JSValue.asString, he]
  · intro t hta
    refine ⟨?_, ?_⟩
    · intro e he
      simp [invoke, invokeRaw, hval, hsu, hsp, hb, hpg, hpu, hpa, JSValue.asString, hta, he]
    · intro v hv
      cases hrem : removeUserFromGroup gs us v t baseUrl rR with
      | error e =>
        simp [invoke, invokeRaw, hval, hsu, hsp, hb, hpg, hpu, hpa, JSValue.asString,
          hta, hv, hrem]
      | ok b2 =>
        simp [invoke, invokeRaw, hval, hsu, hsp, hb, hpg, hpu, hpa, JSValue.asString,
          hta, hv, hrem]

/-- Witness for C6: with authentication answering 429, the only request
ever issued is the authenticate call. -/
theorem claim_sequential_witness :
    (invoke ⟨.str "g_1", .str "u_1", .str "am_1", some "http://b"⟩ ⟨some "user", some "pw", none⟩
        ⟨429, "Too Many Requests", "", none⟩ ⟨200, "OK", "", some 5⟩ ⟨204, "No Content", ""⟩
        ⟨2024, 1, 15, 10, 30, 0, 0⟩).2 =
      [ApiCall.auth "am_1" "user" "pw" "http://b"] :=
  (claim_sequential "g_1" "u_1" "am_1" "http://b"
      ⟨.str "g_1", .str "u_1", .str "am_1", some "http://b"⟩ ⟨some "user", some "pw", none⟩
      ⟨429, "Too Many Requests", "", none⟩ ⟨200, "OK", "", some 5⟩ ⟨204, "No Content", ""⟩
      ⟨2024, 1, 15, 10, 30, 0, 0⟩
      rfl rfl rfl (by decide) (by decide) (by decide) rfl rfl rfl).1
    (.retryableError "Boundary API rate limit exceeded") rfl

theorem wrapOutgoing_tagged (e : JSError) : (wrapOutgoing e).tagged = true := by
  cases e <;> rfl

theorem wrapOutgoing_of_tagged (e : JSError) (h : e.tagged = true) : wrapOutgoing e = e := by
  cases e with
  | retryableError m => rfl
  | fatalError m => rfl
  | plainError m => simp [JSError.tagged] at h

/-- C7: every error leaving the invoke boundary is tagged Retryable or
Fatal; an escaping error that already carries a tag is re-thrown
unchanged, and an untagged one is wrapped as a Fatal error whose message
carries the "Unexpected error: " prefix. -/
theorem claim_error_taxonomy (p : Params) (ctx : Context) (aR : AuthResponse)
    (gR : GroupResponse) (rR : RemoveResponse) (now : JSDate) :
    (∀ e, (invoke p ctx aR gR rR now).1 = .error e → e.tagged = true) ∧
    (∀ e, e.tagged = true → (invokeRaw p ctx aR gR rR now).1 = .error e →
      (invoke p ctx aR gR rR now).1 = .error e) ∧
    (∀ m, (invokeRaw p ctx aR gR rR now).1 = .error (.plainError m) →
      (invoke p ctx aR gR rR now).1 = .error (.fatalError ("Unexpected error: " ++ m))) := by
  refine ⟨?_, ?_, ?_⟩
  · intro e he
    cases hr : (invokeRaw p ctx aR gR rR now).1 with
    | error e0 =>
      have : (invoke p ctx aR gR rR now).1 = .error (wrapOutgoing e0) := by
        simp [invoke, hr]
      rw [this] at he
      injection he with h2
      rw [← h2]
      exact wrapOutgoing_tagged e0
    | ok v =>
      have : (invoke p ctx aR gR rR now).1 = .ok v := by simp [invoke, hr]
      rw [this] at he
      exact Except.noConfusion he
  · intro e htag hr
    have : (invoke p ctx aR gR rR now).1 = .error (wrapOutgoing e) := by simp [invoke, hr]
    rw [this, wrapOutgoing_of_tagged e htag]
  · intro m hr
    simp [invoke, hr, wrapOutgoing]

/-- Witness for C7: with a missing base address the plain configuration
error is wrapped as Fatal with the "Unexpected error: " prefix at the
invoke boundary. -/
theorem claim_error_taxonomy_witness :
    (invoke ⟨.str "g_1", .str "u_1", .str "am_1", none⟩ ⟨some "user", some "pw", none⟩
        ⟨200, "OK", "", some "T"⟩ ⟨200, "OK", "", some 5⟩ ⟨204, "No Content", ""⟩
        ⟨2024, 1, 15, 10, 30, 0, 0⟩).1 =
      .error (.fatalError ("Unexpected error: "
        ++ "No URL specified. Provide address parameter or ADDRESS environment variable")) :=
  (claim_error_taxonomy _ _ _ _ _ _).2.2
    "No URL specified. Provide address parameter or ADDRESS environment variable" rfl

/-- C8 counterexample: a groupId supplied as the empty string is not
echoed by halt; the fallback replaces it with "unknown", because the
source substitutes on any falsy value, not only on a missing one. -/
theorem claim_halt_counterexample :
    (halt ⟨some "timeout", some "", some "u_1", some "am_1"⟩
        ⟨2024, 1, 15, 10, 30, 0, 0⟩).groupId = "unknown" ∧
    "unknown" ≠ "" := ⟨rfl, by decide⟩

theorem orUnknown_of_some (o : Option String) (s : String) (ho : o = some s) (h : s ≠ "") :
    orUnknown o = s := by
  subst ho
  simp [orUnknown, strFalsy, h]

theorem orUnknown_of_falsy (o : Option String) (h : strFalsy o = true) :
    orUnknown o = "unknown" := by
  simp [orUnknown, h]

/-- C8 (amended): the HaltResult echoes each of groupId, userId,
authMethodId and reason that is supplied with a non-empty value; a field
that is missing, and likewise one supplied as the empty string, resolves
to the literal "unknown"; cleanupCompleted is always true and haltedAt
is a valid timestamp. -/
theorem claim_halt_result (p : HaltParams) (now : JSDate) :
    (∀ s, p.groupId = some s → s ≠ "" → (halt p now).groupId = s) ∧
    (∀ s, p.userId = some s → s ≠ "" → (halt p now).userId = s) ∧
    (∀ s, p.authMethodId = some s → s ≠ "" → (halt p now).authMethodId = s) ∧
    (∀ s, p.reason = some s → s ≠ "" → (halt p now).reason = s) ∧
    (strFalsy p.groupId = true → (halt p now).groupId = "unknown") ∧
    (strFalsy p.userId = true → (halt p now).userId = "unknown") ∧
    (strFalsy p.authMethodId = true → (halt p now).authMethodId = "unknown") ∧
    (strFalsy p.reason = true → (halt p now).reason = "unknown") ∧
    (halt p now).cleanupCompleted = true ∧
    isValidISO8601 ((halt p now).haltedAt) = true := by
  refine ⟨fun s hs hne => orUnknown_of_some _ s hs hne,
    fun s hs hne => orUnknown_of_some _ s hs hne,
    fun s hs hne => orUnknown_of_some _ s hs hne,
    fun s hs hne => orUnknown_of_some _ s hs hne,
    fun h => orUnknown_of_falsy _ h,
    fun h => orUnknown_of_falsy _ h,
    fun h => orUnknown_of_falsy _ h,
    fun h => orUnknown_of_falsy _ h,
    rfl,
    isValidISO8601_toISOString now⟩

/-- Witness for C8: non-empty supplied fields are echoed, a missing
userId and an empty-string authMethodId both become "unknown". -/
theorem claim_halt_result_witness :
    (halt ⟨some "timeout", some "g_1", none, some ""⟩
        ⟨2024, 1, 15, 10, 30, 0, 0⟩).groupId = "g_1" ∧
    (halt ⟨some "timeout", some "g_1", none, some ""⟩
        ⟨2024, 1, 15, 10, 30, 0, 0⟩).userId = "unknown" ∧
    (halt ⟨some "timeout", some "g_1", none, some ""⟩
        ⟨2024, 1, 15, 10, 30, 0, 0⟩).authMethodId = "unknown" ∧
    (halt ⟨some "timeout", some "g_1", none, some ""⟩
        ⟨2024, 1, 15, 10, 30, 0, 0⟩).reason = "timeout" ∧
    (halt ⟨some "timeout", some "g_1", none, some ""⟩
        ⟨2024, 1, 15, 10, 30, 0, 0⟩).cleanupCompleted = true ∧
    isValidISO8601 ((halt ⟨some "timeout", some "g_1", none, some ""⟩
        ⟨2024, 1, 15, 10, 30, 0, 0⟩).haltedAt) = true :=
  ⟨(claim_halt_result ⟨some "timeout", some "g_1", none, some ""⟩
        ⟨2024, 1, 15, 10, 30, 0, 0⟩).1 "g_1" rfl (by decide),
   (claim_halt_result ⟨some "timeout", some "g_1", none, some ""⟩
        ⟨2024, 1, 15, 10, 30, 0, 0⟩).2.2.2.2.2.1 rfl,
   (claim_halt_result ⟨some "timeout", some "g_1", none, some ""⟩
        ⟨2024, 1, 15, 10, 30, 0, 0⟩).2.2.2.2.2.2.1 rfl,
   (claim_halt_result ⟨some "timeout", some "g_1", none, some ""⟩
        ⟨2024, 1, 15, 10, 30, 0, 0⟩).2.2.2.1 "timeout" rfl (by decide),
   (claim_halt_result ⟨some "timeout", some "g_1", none, some ""⟩
        ⟨2024, 1, 15, 10, 30, 0, 0⟩).2.2.2.2.2.2.2.2.1,
   (claim_halt_result ⟨some "timeout", some "g_1", none, some ""⟩
        ⟨2024, 1, 15, 10, 30, 0, 0⟩).2.2.2.2.2.2.2.2.2⟩

theorem getBaseURL_missing (pa ea : Option String)
    (h1 : strFalsy pa = true) (h2 : strFalsy ea = true) :
    getBaseURL pa ea =
      .error (.plainError
        "No URL specified. Provide address parameter or ADDRESS environment variable") := by
  have h2b : (ea.getD "" == "") = true := h2
  simp only [getBaseURL, h1, if_true]
  simp [h2b]

set_option maxRecDepth 4000 in
/-- C9: with valid parameters, missing credential secrets stop invoke
before any network call with a Fatal error naming both secret names
together; a missing base address (neither address parameter nor ADDRESS
environment variable) stops invoke before any network call with a Fatal
error naming both configuration sources; the two messages are distinct
and each mentions its specific fields. -/
theorem claim_config_errors (p : Params) (ctx : Context) (aR : AuthResponse)
    (gR : GroupResponse) (rR : RemoveResponse) (now : JSDate)
    (hval : validateInputs p = .ok ()) :
    (strFalsy ctx.BASIC_USERNAME = true ∨ strFalsy ctx.BASIC_PASSWORD = true →
      invoke p ctx aR gR rR now =
        (.error (.fatalError "Missing required secrets: BASIC_USERNAME and BASIC_PASSWORD"),
         [])) ∧
    (strFalsy ctx.BASIC_USERNAME = false → strFalsy ctx.BASIC_PASSWORD = false →
     strFalsy p.address = true → strFalsy ctx.ADDRESS = true →
      invoke p ctx aR gR rR now =
        (.error (.fatalError ("Unexpected error: "
          ++ "No URL specified. Provide address parameter or ADDRESS environment variable")),
         [])) ∧
    "Missing required secrets: BASIC_USERNAME and BASIC_PASSWORD" ≠
      ("Unexpected error: "
        ++ "No URL specified. Provide address parameter or ADDRESS environment variable") ∧
    List.IsInfix "BASIC_USERNAME".data
      "Missing required secrets: BASIC_USERNAME and BASIC_PASSWORD".data ∧
    List.IsInfix "BASIC_PASSWORD".data
      "Missing required secrets: BASIC_USERNAME and BASIC_PASSWORD".data ∧
    List.IsInfix "address parameter".data
      ("Unexpected error: "
        ++ "No URL specified. Provide address parameter or ADDRESS environment variable").data ∧
    List.IsInfix "ADDRESS environment variable".data
      ("Unexpected error: "
        ++ "No URL specified. Provide address parameter or ADDRESS environment variable").data := by
  refine ⟨?_, ?_, by decide, by decide, by decide, by decide, by decide⟩
  · intro h
    have hcond : (strFalsy ctx.BASIC_USERNAME || strFalsy ctx.BASIC_PASSWORD) = true := by
      rcases h with h | h <;> simp [h]
    simp [invoke, invokeRaw, hval, hcond, wrapOutgoing]
  · intro hsu hsp hpa hea
    have hb := getBaseURL_missing p.address ctx.ADDRESS hpa hea
    simp [invoke, invokeRaw, hval, hsu, hsp, hb, wrapOutgoing]

/-- Witness for C9 at concrete contexts: one missing the username
secret, one missing every address source. -/
theorem claim_config_errors_witness :
    invoke ⟨.str "g_1", .str "u_1", .str "am_1", none⟩ ⟨none, some "pw", none⟩
        ⟨200, "OK", "", some "T"⟩ ⟨200, "OK", "", some 5⟩ ⟨204, "No Content", ""⟩
        ⟨2024, 1, 15, 10, 30, 0, 0⟩ =
      (.error (.fatalError "Missing required secrets: BASIC_USERNAME and BASIC_PASSWORD"),
       []) ∧
    invoke ⟨.str "g_1", .str "u_1", .str "am_1", none⟩ ⟨some "user", some "pw", none⟩
        ⟨200, "OK", "", some "T"⟩ ⟨200, "OK", "", some 5⟩ ⟨204, "No Content", ""⟩
        ⟨2024, 1, 15, 10, 30, 0, 0⟩ =
      (.error (.fatalError ("Unexpected error: "
        ++ "No URL specified. Provide address parameter or ADDRESS environment variable")),
       []) :=
  ⟨(claim_config_errors ⟨.str "g_1", .str "u_1", .str "am_1", none⟩ ⟨none, some "pw", none⟩
      ⟨200, "OK", "", some "T"⟩ ⟨200, "OK", "", some 5⟩ ⟨204, "No Content", ""⟩
      ⟨2024, 1, 15, 10, 30, 0, 0⟩ rfl).1 (Or.inl rfl),
   (claim_config_errors ⟨.str "g_1", .str "u_1", .str "am_1", none⟩ ⟨some "user", some "pw", none⟩
      ⟨200, "OK", "", some "T"⟩ ⟨200, "OK", "", some 5⟩ ⟨204, "No Content", ""⟩
      ⟨2024, 1, 15, 10, 30, 0, 0⟩ rfl).2.1 rfl rfl rfl rfl⟩

/-- C10: on a 2xx group read whose parsed version is 0, and likewise
absent, the step fails with the same Fatal "No version returned" error;
on a 2xx authenticate whose parsed token is the empty string, and
likewise absent, the step fails with the same Fatal "No token returned"
error. -/
theorem claim_falsy_version_token (am u pw g t b : String)
    (aR : AuthResponse) (gR : GroupResponse)
    (haok : httpOk aR.status = true) (hat : aR.token = some "" ∨ aR.token = none)
    (hgok : httpOk gR.status = true) (hgv : gR.version = some 0 ∨ gR.version = none) :
    authenticate am u pw b aR = .error (.fatalError "No token returned from authentication") ∧
    getGroup g t b gR = .error (.fatalError "No version returned from group") := by
  constructor
  · rcases hat with h | h <;> simp [authenticate, haok, strFalsy, h]
  · rcases hgv with h | h <;> simp [getGroup, hgok, h]

/-- Witness for C10: a 200 authenticate carrying an empty token and a
201 group read carrying version 0 both fail as if the field were
absent. -/
theorem claim_falsy_version_token_witness :
    authenticate "am" "u" "pw" "http://b" ⟨200, "OK", "", some ""⟩ =
      .error (.fatalError "No token returned from authentication") ∧
    getGroup "g" "tok" "http://b" ⟨201, "Created", "", some 0⟩ =
      .error (.fatalError "No version returned from group") :=
  claim_falsy_version_token "am" "u" "pw" "g" "tok" "http://b"
    ⟨200, "OK", "", some ""⟩ ⟨201, "Created", "", some 0⟩
    rfl (Or.inl rfl) rfl (Or.inl rfl)

end BoundaryRemove
